import Mathlib

/-!
Shallow embedding of `tlsprofiler/__init__.py` (the TLSProfiler compliance
evaluation core) and proofs of the specification claims about it.

Python sets are modelled as lists carrying the iteration order the Python
runtime would produce; claims about set contents add `Nodup` hypotheses
where needed.  Machine-level details that cannot throw are modelled as
plain functions; `check_certificate`, which can raise in Python, returns
`Except String`.
-/

namespace TLSProfilerModel

/-- A Mozilla TLS configuration profile, as the fields of
`self.target_profile` that the code reads.  `rsa_key_size` is `none` when
the JSON value is `null` (Python falsy). -/
structure Profile where
  tls_versions : List String
  ciphersuites : List String
  ciphers_openssl : List String
  maximum_certificate_lifespan : Int
  certificate_types : List String
  rsa_key_size : Option Nat
  certificate_curves : List String
  certificate_signatures : List String
  deriving Repr, DecidableEq

/-- A parsed public key, one constructor per `cryptography` class the code
tests with `isinstance` (the classes are pairwise disjoint), plus `other`
for every unrecognized key type. -/
inductive PubKey where
  | rsa (key_size : Nat)
  | ec (curve_name : String)
  | ed25519
  | ed448
  | dsa
  | other
  deriving Repr, DecidableEq

/-- `isinstance(pub_key, rsa.RSAPublicKey)` -/
def PubKey.isRSAPublicKey : PubKey → Bool
  | .rsa _ => true
  | _ => false

/-- `isinstance(pub_key, ec.EllipticCurvePublicKey)` -/
def PubKey.isEllipticCurvePublicKey : PubKey → Bool
  | .ec _ => true
  | _ => false

/-- `isinstance(pub_key, ed25519.Ed25519PublicKey)` -/
def PubKey.isEd25519PublicKey : PubKey → Bool
  | .ed25519 => true
  | _ => false

/-- `isinstance(pub_key, ed448.Ed448PublicKey)` -/
def PubKey.isEd448PublicKey : PubKey → Bool
  | .ed448 => true
  | _ => false

/-- `isinstance(pub_key, dsa.DSAPublicKey)` -/
def PubKey.isDSAPublicKey : PubKey → Bool
  | .dsa => true
  | _ => false

/-- An X.509 certificate, restricted to the fields the code reads.
Validity instants are in seconds; `timedelta.days` is floor division of the
difference by 86400. -/
structure Certificate where
  not_valid_before : Int
  not_valid_after : Int
  public_key : PubKey
  signature_algorithm_name : String
  deriving Repr, DecidableEq

/-- `TLSProfiler._cert_type_string`: the if/elif chain over the
`isinstance` checks, falling through to the empty string. -/
def cert_type_string (pub_key : PubKey) : String :=
  if pub_key.isRSAPublicKey then "RSA"
  else if pub_key.isEllipticCurvePublicKey then "ECDSA"
  else if pub_key.isEd25519PublicKey then "ED25519"
  else if pub_key.isEd448PublicKey then "ED448"
  else if pub_key.isDSAPublicKey then "DSA"
  else ""

/-- Python truthiness of the profile field `rsa_key_size` (`None` and `0`
are falsy). -/
def optNatTruthy : Option Nat → Bool
  | none => false
  | some n => n != 0

/-- `TLSProfiler.check_certificate_properties`: certificate-vs-profile
checks, each appending at most one message, in source order. -/
def check_certificate_properties (profile : Profile) (certificate : Certificate)
    (ocsp_stapling : Bool) : List String × String :=
  -- lifespan = not_valid_after - not_valid_before; timedelta .days floors
  let lifespan_days : Int := (certificate.not_valid_after - certificate.not_valid_before).fdiv 86400
  let errors1 : List String :=
    if profile.maximum_certificate_lifespan < lifespan_days then
      ["certificate lifespan to long"]
    else []
  let pub_key_type := cert_type_string certificate.public_key
  let errors2 : List String :=
    if pub_key_type.toLower ∈ profile.certificate_types then []
    else ["wrong certificate type (" ++ pub_key_type ++ ")"]
  let errors3 : List String :=
    match certificate.public_key with
    | .rsa key_size =>
        if optNatTruthy profile.rsa_key_size ∧ key_size ≠ profile.rsa_key_size.getD 0 then
          ["RSA certificate has wrong key size"]
        else []
    | .ec curve_name =>
        if profile.certificate_curves ≠ [] ∧ curve_name ∉ profile.certificate_curves then
          ["ECDSA certificate uses wrong curve"]
        else []
    | _ => []
  let errors4 : List String :=
    if certificate.signature_algorithm_name ∈ profile.certificate_signatures then []
    else ["certificate has a wrong signature"]
  let errors5 : List String :=
    if ocsp_stapling then [] else ["OCSP stapling must be supported"]
  (errors1 ++ errors2 ++ errors3 ++ errors4 ++ errors5, pub_key_type)

/-- One entry of `result.path_validation_result_list`. -/
structure PathValidationResult where
  was_validation_successful : Bool
  verify_string : String
  trust_store_name : String
  deriving Repr, DecidableEq

/-- One entry of `result.path_validation_error_list`. -/
structure PathValidationError where
  error_message : String
  deriving Repr, DecidableEq

/-- The fields of sslyze `CertificateInfoScanResult` that
`check_certificate` reads. -/
structure CertificateInfoScanResult where
  received_certificate_chain : List Certificate
  ocsp_response_is_trusted : Bool
  path_validation_result_list : List PathValidationResult
  path_validation_error_list : List PathValidationError
  leaf_certificate_subject_matches_hostname : Bool
  received_chain_has_valid_order : Bool
  verified_chain_has_sha1_signature : Bool
  verified_chain_has_legacy_symantec_anchor : Bool
  leaf_certificate_signed_certificate_timestamps_count : Nat
  deriving Repr, DecidableEq

/-- `TLSProfiler.check_certificate`.  Translated statement by statement;
the two Python statements that can raise are modelled as `Except.error`:
indexing an empty `received_certificate_chain` raises `IndexError`, and
when `path_validation_error_list` is non-empty the code rebinds
`validation_errors` to a generator expression and then calls `.append` on
that generator, which raises `AttributeError`. -/
def check_certificate (profile : Profile) (result : CertificateInfoScanResult) :
    Except String (List String × List String × String) := do
  let certificate ← match result.received_certificate_chain with
    | [] => Except.error "IndexError: list index out of range"
    | c :: _ => Except.ok c
  let profRes := check_certificate_properties profile certificate result.ocsp_response_is_trusted
  let profile_errors := profRes.1
  let pub_key_type := profRes.2
  let validation_errors : List String :=
    (result.path_validation_result_list.filter (fun r => !r.was_validation_successful)).map
      (fun r => "validation not successful: " ++ r.verify_string
        ++ " (trust store " ++ r.trust_store_name ++ ")")
  if result.path_validation_error_list ≠ [] then
    Except.error "AttributeError: generator object has no attribute append"
  else
    let validation_errors :=
      if !result.leaf_certificate_subject_matches_hostname then
        validation_errors ++ ["Leaf certificate subject does not match hostname!"]
      else validation_errors
    let validation_errors :=
      if !result.received_chain_has_valid_order then
        validation_errors ++ ["Certificate chain has wrong order."]
      else validation_errors
    let validation_errors :=
      if result.verified_chain_has_sha1_signature then
        validation_errors ++ ["SHA1 signature found in chain."]
      else validation_errors
    let validation_errors :=
      if result.verified_chain_has_legacy_symantec_anchor then
        validation_errors ++ ["Symantec legacy certificate found in chain."]
      else validation_errors
    let validation_errors :=
      if result.leaf_certificate_signed_certificate_timestamps_count < 2 then
        validation_errors ++ ["Not enought SCTs in certificate, only found "
          ++ toString result.leaf_certificate_signed_certificate_timestamps_count ++ "."]
      else validation_errors
    Except.ok (validation_errors, profile_errors, pub_key_type)

/-- The f-string `must not support "<x>"` used for both illegal protocols
and illegal ciphers. -/
def must_not_support (x : String) : String :=
  "must not support \"" ++ x ++ "\""

/-- `TLSProfiler.check_server_matches_profile`.  `supported_protocols` and
`supported_ciphers` are the Python sets in their iteration order; set
difference keeps exactly the members outside the allowed set, and the
protocol errors are appended before the cipher errors. -/
def check_server_matches_profile (profile : Profile)
    (supported_protocols supported_ciphers : List String) : List String :=
  -- allowed_protocols = set(profile['tls_versions'])
  let illegal_protocols := supported_protocols.filter (fun p => p ∉ profile.tls_versions)
  let protocol_errors := illegal_protocols.map must_not_support
  -- allowed_ciphers = set(profile['ciphersuites'] + profile['ciphers']['openssl'])
  let allowed_ciphers := profile.ciphersuites ++ profile.ciphers_openssl
  let illegal_ciphers := supported_ciphers.filter (fun c => c ∉ allowed_ciphers)
  let cipher_errors := illegal_ciphers.map must_not_support
  protocol_errors ++ cipher_errors

/-- sslyze `RobotScanResultEnum`. -/
inductive RobotScanResultEnum where
  | VULNERABLE_WEAK_ORACLE
  | VULNERABLE_STRONG_ORACLE
  | NOT_VULNERABLE_NO_ORACLE
  | NOT_VULNERABLE_RSA_NOT_SUPPORTED
  | UNKNOWN_INCONCLUSIVE
  deriving Repr, DecidableEq

/-- `TLSProfiler.check_vulnerabilities`: the three probe verdicts feed
three sequential appends (Heartbleed, then CCS injection, then ROBOT). -/
def check_vulnerabilities (is_vulnerable_to_heartbleed is_vulnerable_to_ccs_injection : Bool)
    (robot_result_enum : RobotScanResultEnum) : List String :=
  (if is_vulnerable_to_heartbleed then
    ["Server is vulnerable to Heartbleed attack"] else [])
  ++ (if is_vulnerable_to_ccs_injection then
    ["Server is vulnerable to OpenSSL CCS Injection (CVE-2014-0224)"] else [])
  ++ (if robot_result_enum ∈ [RobotScanResultEnum.VULNERABLE_WEAK_ORACLE,
        RobotScanResultEnum.VULNERABLE_STRONG_ORACLE] then
    ["Server is vulnerable to ROBOT attack."] else [])

/-- `TLSProfilerResult.__init__`: stores the three error lists and derives
the four booleans. -/
structure TLSProfilerResult where
  validation_errors : List String
  profile_errors : List String
  vulnerability_errors : List String
  validated : Bool
  profile_matched : Bool
  vulnerable : Bool
  all_ok : Bool
  deriving Repr, DecidableEq

/-- The constructor body of `TLSProfilerResult.__init__`. -/
def TLSProfilerResult.make (validation_errors profile_errors vulnerability_errors : List String) :
    TLSProfilerResult :=
  let validated := validation_errors.length == 0
  let profile_matched := profile_errors.length == 0
  let vulnerable := vulnerability_errors.length > 0
  { validation_errors := validation_errors
    profile_errors := profile_errors
    vulnerability_errors := vulnerability_errors
    validated := validated
    profile_matched := profile_matched
    vulnerable := vulnerable
    all_ok := validated && profile_matched && !vulnerable }

/-- The connectivity handle `server_tester.perform()` returns. -/
structure ServerInfo where
  hostname : String
  deriving Repr, DecidableEq

/-- The `TLSProfiler` instance state that `run` reads: the resolved target
profile plus exactly one of `server_info` / `server_error`, as set by
`__init__`. -/
structure ProfilerState where
  target_profile : Profile
  server_info : Option ServerInfo
  server_error : Option String
  deriving Repr, DecidableEq

/-- The connectivity part of `TLSProfiler.__init__`: `perform()` either
yields a handle (then `server_error = None`) or raises
`ServerConnectivityError` (then `server_info = None` and the message is
stored). -/
def TLSProfiler.initState (profile : Profile) (conn : Except String ServerInfo) : ProfilerState :=
  match conn with
  | Except.ok si => ⟨profile, some si, none⟩
  | Except.error msg => ⟨profile, none, some msg⟩

/-- The facts the external scans feed into one `run` call:
the certificate scan, the surveyed protocol/cipher sets (in iteration
order) and the three vulnerability verdicts. -/
structure ScanFacts where
  cert_result : CertificateInfoScanResult
  supported_protocols : List String
  supported_ciphers : List String
  is_vulnerable_to_heartbleed : Bool
  is_vulnerable_to_ccs_injection : Bool
  robot_result_enum : RobotScanResultEnum
  deriving Repr, DecidableEq

/-- `TLSProfiler.run`: returns `None` when connectivity failed, otherwise
runs the four check phases and aggregates
`TLSProfilerResult(validation_error, profile_errors + cert_profile_error,
vulnerability_errors)`.  A Python exception from `check_certificate`
propagates as `Except.error`. -/
def TLSProfiler.run (st : ProfilerState) (facts : ScanFacts) :
    Except String (Option TLSProfilerResult) :=
  match st.server_info with
  | none => Except.ok none
  | some _ => do
      let certRes ← check_certificate st.target_profile facts.cert_result
      let validation_error := certRes.1
      let cert_profile_error := certRes.2.1
      let profile_errors := check_server_matches_profile st.target_profile
        facts.supported_protocols facts.supported_ciphers
      let vulnerability_errors := check_vulnerabilities facts.is_vulnerable_to_heartbleed
        facts.is_vulnerable_to_ccs_injection facts.robot_result_enum
      Except.ok (some (TLSProfilerResult.make
        validation_error
        (profile_errors ++ cert_profile_error)
        vulnerability_errors))

/-! ## Helper lemmas -/

/-- `must_not_support` is injective: distinct protocol/cipher names give
distinct error messages. -/
theorem must_not_support_injective : Function.Injective must_not_support := by
  intro a b h
  unfold must_not_support at h
  have hd : ("must not support \"".data ++ a.data) ++ "\"".data
      = ("must not support \"".data ++ b.data) ++ "\"".data := by
    have := congrArg String.data h
    simpa [String.data_append] using this
  have hd2 := List.append_cancel_right hd
  have hd3 := List.append_cancel_left hd2
  cases a; cases b; exact congrArg String.mk hd3

/-- Counting an element in a duplicate-free filtered list. -/
theorem count_filter_of_nodup (l : List String) (hl : l.Nodup) (p : String → Bool) (x : String) :
    (l.filter p).count x = if x ∈ l ∧ p x = true then 1 else 0 := by
  by_cases hmem : x ∈ l ∧ p x = true
  · rw [if_pos hmem]
    exact List.count_eq_one_of_mem (hl.filter p) (List.mem_filter.mpr ⟨hmem.1, hmem.2⟩)
  · rw [if_neg hmem]
    refine List.count_eq_zero_of_not_mem (fun hc => hmem ?_)
    have := List.mem_filter.mp hc
    exact ⟨this.1, this.2⟩

/-! ## Claim theorems -/

/-- Claim C2: the result constructor derives `validated` iff the
validation list is empty, `profile_matched` iff the profile list is empty,
`vulnerable` iff the vulnerability list is non-empty, and `all_ok` iff all
three lists are empty. -/
theorem C2_result_flags (v p vu : List String) :
    ((TLSProfilerResult.make v p vu).validated = true ↔ v = [])
    ∧ ((TLSProfilerResult.make v p vu).profile_matched = true ↔ p = [])
    ∧ ((TLSProfilerResult.make v p vu).vulnerable = true ↔ vu ≠ [])
    ∧ ((TLSProfilerResult.make v p vu).all_ok = true ↔ (v = [] ∧ p = [] ∧ vu = [])) := by
  simp [TLSProfilerResult.make, List.length_eq_zero, List.length_pos, and_assoc]

/-- Claim C4: the key-family classifier always returns one of the six
pairwise-distinct values RSA, ECDSA, ED25519, ED448, DSA or the empty
string, and at most one of the five `isinstance` branch guards holds for
any key (so with the final fallthrough exactly one branch fires). -/
theorem C4_cert_type_total_exclusive (k : PubKey) :
    cert_type_string k ∈ ["RSA", "ECDSA", "ED25519", "ED448", "DSA", ""]
    ∧ (["RSA", "ECDSA", "ED25519", "ED448", "DSA", ""] : List String).Nodup
    ∧ [k.isRSAPublicKey, k.isEllipticCurvePublicKey, k.isEd25519PublicKey,
        k.isEd448PublicKey, k.isDSAPublicKey].count true ≤ 1
    ∧ (cert_type_string k = "" ↔ k.isRSAPublicKey = false ∧ k.isEllipticCurvePublicKey = false
        ∧ k.isEd25519PublicKey = false ∧ k.isEd448PublicKey = false ∧ k.isDSAPublicKey = false) := by
  refine ⟨?_, by decide, ?_, ?_⟩ <;>
    cases k <;>
      simp [cert_type_string, PubKey.isRSAPublicKey, PubKey.isEllipticCurvePublicKey,
        PubKey.isEd25519PublicKey, PubKey.isEd448PublicKey, PubKey.isDSAPublicKey]

/-- Claim C7: the ROBOT message is emitted iff the ROBOT verdict is
"vulnerable, weak oracle" or "vulnerable, strong oracle"; the other three
verdicts contribute nothing. -/
theorem C7_robot_verdicts (h c : Bool) (r : RobotScanResultEnum) :
    "Server is vulnerable to ROBOT attack." ∈ check_vulnerabilities h c r
    ↔ (r = RobotScanResultEnum.VULNERABLE_WEAK_ORACLE
        ∨ r = RobotScanResultEnum.VULNERABLE_STRONG_ORACLE) := by
  cases h <;> cases c <;> cases r <;> decide

/-- Claim C9: for every combination of probe verdicts the vulnerability
error list is a sublist of the fixed three-message sequence (Heartbleed,
CCS injection, ROBOT), hence has at most three entries, keeps that order,
and repeats no message. -/
theorem C9_vuln_list_shape (h c : Bool) (r : RobotScanResultEnum) :
    List.Sublist (check_vulnerabilities h c r)
      ["Server is vulnerable to Heartbleed attack",
       "Server is vulnerable to OpenSSL CCS Injection (CVE-2014-0224)",
       "Server is vulnerable to ROBOT attack."]
    ∧ (check_vulnerabilities h c r).length ≤ 3
    ∧ (check_vulnerabilities h c r).Nodup := by
  cases h <;> cases c <;> cases r <;> refine ⟨by decide, by decide, by decide⟩

/-- Claim C8: when the connectivity probe fails, `run` returns nothing,
the stored connection error message is visible and no server handle is
kept; when connectivity succeeded, `run` never returns the empty outcome
(it yields either a complete result or a propagated exception). -/
theorem C8_connectivity_failure (profile : Profile) (facts : ScanFacts) (msg : String)
    (si : ServerInfo) :
    TLSProfiler.run (TLSProfiler.initState profile (Except.error msg)) facts = Except.ok none
    ∧ (TLSProfiler.initState profile (Except.error msg)).server_error = some msg
    ∧ (TLSProfiler.initState profile (Except.error msg)).server_info = none
    ∧ TLSProfiler.run (TLSProfiler.initState profile (Except.ok si)) facts ≠ Except.ok none := by
  refine ⟨rfl, rfl, rfl, ?_⟩
  unfold TLSProfiler.run TLSProfiler.initState
  cases hc : check_certificate profile facts.cert_result with
  | error e => simp only [hc]; exact fun hh => Except.noConfusion hh
  | ok t => simp only [hc]; exact fun hh => Option.noConfusion (Except.ok.inj hh)

/-- Claim C3: over duplicate-free supported sets, the matcher emits the
message `must not support "<x>"` exactly once for each x that is a
supported protocol outside the allowed protocols or a supported cipher
outside the union of the profile ciphersuites and OpenSSL-named ciphers,
and never otherwise — no false positives, no omissions. -/
theorem C3_matcher_exact (profile : Profile) (sp sc : List String)
    (hsp : sp.Nodup) (hsc : sc.Nodup) (x : String) :
    ((check_server_matches_profile profile sp sc).count (must_not_support x)
      = (if x ∈ sp ∧ x ∉ profile.tls_versions then 1 else 0)
        + (if x ∈ sc ∧ x ∉ profile.ciphersuites ++ profile.ciphers_openssl then 1 else 0))
    ∧ ∀ e ∈ check_server_matches_profile profile sp sc, ∃ y, e = must_not_support y
        ∧ ((y ∈ sp ∧ y ∉ profile.tls_versions)
          ∨ (y ∈ sc ∧ y ∉ profile.ciphersuites ++ profile.ciphers_openssl)) := by
  constructor
  · unfold check_server_matches_profile
    rw [List.count_append,
      List.count_map_of_injective _ must_not_support must_not_support_injective,
      List.count_map_of_injective _ must_not_support must_not_support_injective,
      count_filter_of_nodup sp hsp _ x, count_filter_of_nodup sc hsc _ x]
    simp
  · intro e he
    unfold check_server_matches_profile at he
    rcases List.mem_append.mp he with hm | hm <;>
      obtain ⟨y, hy, rfl⟩ := List.mem_map.mp hm
    · exact ⟨y, rfl, Or.inl (by simpa using List.mem_filter.mp hy)⟩
    · exact ⟨y, rfl, Or.inr (by simpa using List.mem_filter.mp hy)⟩

/-- Witness for C3 at a concrete profile and scan: TLSv1.0 is reported
once, the allowed cipher X is never reported. -/
theorem C3_matcher_exact_witness :
    (check_server_matches_profile
        ⟨["TLSv1.2", "TLSv1.3"], ["X"], [], 366, [], none, [], []⟩
        ["TLSv1.2", "TLSv1.0"] ["X", "Y"]).count (must_not_support "TLSv1.0") = 1
    ∧ (check_server_matches_profile
        ⟨["TLSv1.2", "TLSv1.3"], ["X"], [], 366, [], none, [], []⟩
        ["TLSv1.2", "TLSv1.0"] ["X", "Y"]).count (must_not_support "X") = 0 := by
  constructor
  · rw [(C3_matcher_exact _ _ _ (by decide) (by decide) "TLSv1.0").1]; decide
  · rw [(C3_matcher_exact _ _ _ (by decide) (by decide) "X").1]; decide

/-- A profile whose allowed protocol and cipher sets are empty, used to
exercise the matcher on its own. -/
def emptyProfile : Profile :=
  ⟨[], [], [], 0, [], none, [], []⟩

/-- The Scenario A profile: protocols TLSv1.2/TLSv1.3, single ciphersuite
X, no OpenSSL-named ciphers. -/
def scenarioAProfile : Profile :=
  ⟨["TLSv1.2", "TLSv1.3"], ["X"], [], 366, [], none, [], []⟩

/-- Counterexample to claim C5: the emitted error list is a function of
the iteration order, not of the set contents — the two iteration orders of
the same two-element supported-protocol set produce different (and in one
case unsorted) outputs, so the output is not deterministic given identical
input sets and is not always lexicographically sorted. -/
theorem C5_counterexample :
    List.Perm ["B", "A"] ["A", "B"]
    ∧ check_server_matches_profile emptyProfile ["B", "A"] []
        = [must_not_support "B", must_not_support "A"]
    ∧ check_server_matches_profile emptyProfile ["A", "B"] []
        = [must_not_support "A", must_not_support "B"]
    ∧ check_server_matches_profile emptyProfile ["B", "A"] []
        ≠ check_server_matches_profile emptyProfile ["A", "B"] [] := by
  refine ⟨List.Perm.swap "A" "B" [], by decide, by decide, by decide⟩

/-- Claim C5 as amended: the matcher lists protocol errors before cipher
errors, each section following the iteration order of the corresponding
supported set (so the output is deterministic in that order but not sorted
in general); in Scenario A the illegal sets are singletons, so for every
iteration order the output is exactly the claimed two-message list. -/
theorem C5_amended_scenarioA (sp sc : List String)
    (hsp : List.Perm sp ["TLSv1.2", "TLSv1.3", "TLSv1.0"])
    (hsc : List.Perm sc ["X", "Y"]) :
    check_server_matches_profile scenarioAProfile sp sc
      = [must_not_support "TLSv1.0", must_not_support "Y"] := by
  have h1 : sp.filter (fun p => p ∉ scenarioAProfile.tls_versions) = ["TLSv1.0"] := by
    refine List.perm_singleton.mp ?_
    have h := hsp.filter (fun p => decide (p ∉ scenarioAProfile.tls_versions))
    rw [show List.filter (fun p => decide (p ∉ scenarioAProfile.tls_versions))
        ["TLSv1.2", "TLSv1.3", "TLSv1.0"] = ["TLSv1.0"] from by decide] at h
    exact h
  have h2 : sc.filter
      (fun c => c ∉ scenarioAProfile.ciphersuites ++ scenarioAProfile.ciphers_openssl) = ["Y"] := by
    refine List.perm_singleton.mp ?_
    have h := hsc.filter
      (fun c => decide (c ∉ scenarioAProfile.ciphersuites ++ scenarioAProfile.ciphers_openssl))
    rw [show List.filter
        (fun c => decide (c ∉ scenarioAProfile.ciphersuites ++ scenarioAProfile.ciphers_openssl))
        ["X", "Y"] = ["Y"] from by decide] at h
    exact h
  unfold check_server_matches_profile
  simp only [h1, h2]
  rfl

/-- Witness for the amended C5 at one concrete iteration order. -/
theorem C5_amended_scenarioA_witness :
    check_server_matches_profile scenarioAProfile
        ["TLSv1.0", "TLSv1.3", "TLSv1.2"] ["Y", "X"]
      = [must_not_support "TLSv1.0", must_not_support "Y"] :=
  C5_amended_scenarioA _ _ (by decide) (by decide)

/-- The lifespan message occurs in the property-check output exactly when
the profile maximum is exceeded, and then exactly once: no other check can
emit the string "certificate lifespan to long". -/
theorem count_lifespan_msg (profile : Profile) (c : Certificate) (o : Bool) :
    (check_certificate_properties profile c o).1.count "certificate lifespan to long"
      = if profile.maximum_certificate_lifespan
          < (c.not_valid_after - c.not_valid_before).fdiv 86400 then 1 else 0 := by
  unfold check_certificate_properties
  cases hk : c.public_key <;>
    simp only [hk, cert_type_string, PubKey.isRSAPublicKey, PubKey.isEllipticCurvePublicKey,
      PubKey.isEd25519PublicKey, PubKey.isEd448PublicKey, PubKey.isDSAPublicKey,
      if_true, if_false, Bool.false_eq_true, ite_false, ite_true] <;>
    split_ifs <;>
    simp_all [List.count_append, List.count_cons, List.count_nil]

/-- Claim C6: a certificate whose lifespan in whole days equals the
profile maximum produces no lifespan error; a lifespan one day over
produces exactly one lifespan error. -/
theorem C6_lifespan_boundary (profile : Profile) (c : Certificate) (o : Bool) :
    ((c.not_valid_after - c.not_valid_before).fdiv 86400
        = profile.maximum_certificate_lifespan →
      (check_certificate_properties profile c o).1.count "certificate lifespan to long" = 0)
    ∧ ((c.not_valid_after - c.not_valid_before).fdiv 86400
        = profile.maximum_certificate_lifespan + 1 →
      (check_certificate_properties profile c o).1.count "certificate lifespan to long" = 1) := by
  constructor <;> intro h <;> rw [count_lifespan_msg, h]
  · simp
  · rw [if_pos (by omega)]

/-- Witness for C6: with maximum lifespan 0, a certificate valid 0 days
produces no lifespan error and one valid exactly 1 day produces exactly
one. -/
theorem C6_lifespan_boundary_witness :
    (check_certificate_properties ⟨[], [], [], 0, [], none, [], []⟩
        ⟨0, 0, PubKey.other, "s"⟩ true).1.count "certificate lifespan to long" = 0
    ∧ (check_certificate_properties ⟨[], [], [], 0, [], none, [], []⟩
        ⟨0, 86400, PubKey.other, "s"⟩ true).1.count "certificate lifespan to long" = 1 :=
  ⟨(C6_lifespan_boundary ⟨[], [], [], 0, [], none, [], []⟩ ⟨0, 0, PubKey.other, "s"⟩ true).1
      (by decide),
   (C6_lifespan_boundary ⟨[], [], [], 0, [], none, [], []⟩ ⟨0, 86400, PubKey.other, "s"⟩ true).2
      (by decide)⟩

/-- A certificate scan result with one raw path-validation error and
every other field benign. -/
def certResultWithPathError : CertificateInfoScanResult :=
  { received_certificate_chain := [⟨0, 0, PubKey.other, "s"⟩]
    ocsp_response_is_trusted := true
    path_validation_result_list := []
    path_validation_error_list := [⟨"unable to get local issuer certificate"⟩]
    leaf_certificate_subject_matches_hostname := true
    received_chain_has_valid_order := true
    verified_chain_has_sha1_signature := false
    verified_chain_has_legacy_symantec_anchor := false
    leaf_certificate_signed_certificate_timestamps_count := 2 }

/-- Claim C1 fails on the code: whenever the raw path-validation-error
list is non-empty (and the chain is non-empty so that indexing the leaf
succeeds), `check_certificate` raises `AttributeError` instead of
emitting the combined message, because it rebinds `validation_errors` to
a generator expression and then calls `.append` on that generator. -/
theorem C1_path_validation_error_raises (profile : Profile)
    (result : CertificateInfoScanResult)
    (hchain : result.received_certificate_chain ≠ [])
    (herr : result.path_validation_error_list ≠ []) :
    check_certificate profile result =
      Except.error "AttributeError: generator object has no attribute append" := by
  unfold check_certificate
  cases hc : result.received_certificate_chain with
  | nil => exact absurd hc hchain
  | cons c cs =>
      cases he : result.path_validation_error_list with
      | nil => exact absurd he herr
      | cons e es => rfl

/-- Witness for C1 at the concrete failing input. -/
theorem C1_path_validation_error_raises_witness :
    check_certificate emptyProfile certResultWithPathError =
      Except.error "AttributeError: generator object has no attribute append" :=
  C1_path_validation_error_raises emptyProfile certResultWithPathError
    (by decide) (by decide)

/-- A certificate scan result on which `check_certificate` completes
without raising. -/
def cleanCertResult : CertificateInfoScanResult :=
  { received_certificate_chain := [⟨0, 0, PubKey.other, "s"⟩]
    ocsp_response_is_trusted := true
    path_validation_result_list := []
    path_validation_error_list := []
    leaf_certificate_subject_matches_hostname := true
    received_chain_has_valid_order := true
    verified_chain_has_sha1_signature := false
    verified_chain_has_legacy_symantec_anchor := false
    leaf_certificate_signed_certificate_timestamps_count := 2 }

/-- Scan facts built from `cleanCertResult` with empty surveyed sets and
clean vulnerability verdicts. -/
def cleanFacts : ScanFacts :=
  ⟨cleanCertResult, [], [], false, false, RobotScanResultEnum.NOT_VULNERABLE_NO_ORACLE⟩

/-- Claim C10: whenever `check_certificate` completes, the result that
`run` aggregates puts the protocol/cipher matcher errors first and the
certificate profile errors after them, even though the certificate checks
execute first. -/
theorem C10_profile_error_concatenation (profile : Profile) (si : ServerInfo)
    (facts : ScanFacts) (v cp : List String) (k : String)
    (h : check_certificate profile facts.cert_result = Except.ok (v, cp, k)) :
    TLSProfiler.run (TLSProfiler.initState profile (Except.ok si)) facts
      = Except.ok (some (TLSProfilerResult.make v
          (check_server_matches_profile profile facts.supported_protocols
              facts.supported_ciphers ++ cp)
          (check_vulnerabilities facts.is_vulnerable_to_heartbleed
            facts.is_vulnerable_to_ccs_injection facts.robot_result_enum))) := by
  unfold TLSProfiler.run TLSProfiler.initState
  simp only [h]
  rfl

/-- Witness for C10 at a concrete evaluation that completes. -/
theorem C10_profile_error_concatenation_witness :
    TLSProfiler.run (TLSProfiler.initState emptyProfile (Except.ok ⟨"localhost"⟩)) cleanFacts
      = Except.ok (some (TLSProfilerResult.make []
          (check_server_matches_profile emptyProfile [] []
            ++ ["wrong certificate type ()", "certificate has a wrong signature"])
          (check_vulnerabilities false false RobotScanResultEnum.NOT_VULNERABLE_NO_ORACLE))) :=
  C10_profile_error_concatenation emptyProfile ⟨"localhost"⟩ cleanFacts []
    ["wrong certificate type ()", "certificate has a wrong signature"] "" rfl

end TLSProfilerModel
